import Mathlib

/-!
Shallow embedding of the job-execution service in `app.mjs` (the
on-demand-scraping repository).  The HTTP handler `startScrapperJob`
validates a request, then `runDockerCommand` creates, starts, observes and
reaps one container per job, retrying through an image pull when container
creation reports the runtime image absent.  External collaborators (the
filesystem, `path.resolve`, the Docker engine, the attached log streams,
the image pull) are modelled as explicit inputs: a job's interaction with
the engine is a script of stage outcomes, and the functions below replay
`app.mjs` control flow over that script.
-/

/-- Model of a JavaScript value as far as the validation code inspects one:
`undef` stands for a missing key (reading an absent property yields
`undefined`). -/
inductive JsValue where
  | undef
  | nullV
  | bool (b : Bool)
  | num (n : Int)
  | str (s : String)
  | obj
  | arr
deriving DecidableEq, Repr

/-- JavaScript truthiness, as tested by `!params[field]` in `validateParams`:
`undefined`, `null`, `false`, `0` and the empty string are falsy; objects and
arrays are always truthy. -/
def JsValue.truthy : JsValue → Bool
  | .undef => false
  | .nullV => false
  | .bool b => b
  | .num n => n != 0
  | .str s => s != ""
  | .obj => true
  | .arr => true

/-- The request body as the handler reads it: only `programDirectory` is
ever inspected (`JsValue.undef` models the key being absent); other fields
are passed through unused. -/
structure JsParams where
  programDirectory : JsValue
deriving DecidableEq, Repr

/-- Model of the filesystem as seen through `fs.realpathSync`: `none` models
the call throwing (missing path, permission error). -/
structure FsModel where
  realpath : String → Option String

/-- Embedding of JavaScript `String.prototype.startsWith` as a prefix test
on the character lists of the two strings. -/
def jsStartsWith (s pre : String) : Bool :=
  pre.data.isPrefixOf s.data

/-- Embedding of JavaScript `String.prototype.includes` as a contiguous
substring test on the character lists of the two strings. -/
def jsIncludes (s sub : String) : Bool :=
  s.data.tails.any fun t => sub.data.isPrefixOf t

/-- Model of Node's `path.resolve(base, v)` applied to an arbitrary
JavaScript value: it returns a resolved path string when `v` is a string
(the pure string-level resolution is the abstract parameter `resolveStr`)
and throws a TypeError (`none`) on every non-string argument. -/
def resolveNode (resolveStr : String → String → String) (base : String) :
    JsValue → Option String
  | .str s => some (resolveStr base s)
  | _ => none

/-- Embedding of `isValidPartialPath` (app.mjs lines 185-193): resolve the
base directory and `path.resolve(base, userInputPath)` to their canonical
real paths and accept when the candidate's string starts with the base's
string; any exception thrown inside the `try` (a filesystem error from
either `realpathSync`, or the TypeError from `path.resolve` on a non-string
input) yields `false`. -/
def isValidPartialPath (fs : FsModel) (resolve : JsValue → Option String)
    (basePath : String) (userInputPath : JsValue) : Bool :=
  match fs.realpath basePath with
  | none => false
  | some realBaseDir =>
    match resolve userInputPath with
    | none => false
    | some resolved =>
      match fs.realpath resolved with
      | none => false
      | some realResolvedPath => jsStartsWith realResolvedPath realBaseDir

/-- The result object `{isValid, error}` returned by `validateParams`;
`error` is `none` when the JavaScript `error` variable is left undefined. -/
structure ValidationResult where
  isValid : Bool
  error : Option String
deriving DecidableEq, Repr

/-- The message produced when a required field is falsy
(`Error: ${field} is required` with field `programDirectory`). -/
def requiredFieldMsg : String := "Error: programDirectory is required"

/-- The message produced when `isValidPartialPath` rejects the path. -/
def invalidPathMsg : String :=
  "Error: Invalid program directory, what are you trying to do Mr. Hacker?"

/-- Embedding of `validateParams` (app.mjs lines 183-212): the labelled
`validations:` block first rejects when `!params.programDirectory` (JS
falsiness), then rejects when `isValidPartialPath` returns false, and
otherwise leaves `error` undefined, returning `{isValid: !error, error}`. -/
def validateParams (fs : FsModel) (resolveStr : String → String → String)
    (basePath : String) (params : JsParams) : ValidationResult :=
  if !params.programDirectory.truthy then
    { isValid := false, error := some requiredFieldMsg }
  else if !isValidPartialPath fs (resolveNode resolveStr basePath) basePath
      params.programDirectory then
    { isValid := false, error := some invalidPathMsg }
  else
    { isValid := true, error := none }

/-- Modelled from the spec: the property "the resolved path stays within the
base directory" means the canonical candidate path is the canonical base
directory itself or lies strictly below it (extends it across a path
separator).  This is the spec-side notion the validator is compared
against; it is not a definition from the source. -/
def withinBase (base p : String) : Bool :=
  p == base || jsStartsWith p (base ++ "/")

/-- Shape of an error value thrown by a Docker engine call, as far as
`runDockerCommand`'s catch inspects it: `statusCode` is the HTTP status
carried by a dockerode error (absent on a plain `new Error`), `jsonMessage`
is `err.json.message` when `err.json` exists, and `message` is
`err.message`. -/
structure DockerError where
  statusCode : Option Nat
  jsonMessage : Option String
  message : String
deriving DecidableEq, Repr

/-- The test in `runDockerCommand`'s catch (app.mjs line 175):
`err.statusCode === 404 && err.json && err.json.message.includes('No such image')`. -/
def isImageAbsentShape (e : DockerError) : Bool :=
  e.statusCode == some 404 &&
    match e.jsonMessage with
    | some m => jsIncludes m "No such image"
    | none => false

deriving instance DecidableEq for Except

/-- One container's scripted behaviour for a single attempt of
`runDockerCommand`: the outcome of each Docker call and of the attached
streams.  `createErr`/`startErr`/`attachErr` model the corresponding awaits
rejecting; `stdoutChunks` are the `data` events of the stdout-filtered
stream, `streamErr` models the stream emitting `error` instead of `end`;
`stderrChunks` are the stderr-filtered stream's bytes; `waitRes` is
`container.wait()`, either a rejection or `{StatusCode}`. -/
structure ContainerScript where
  createErr : Option DockerError
  startErr : Option DockerError
  attachErr : Option DockerError
  stdoutChunks : List String
  streamErr : Option DockerError
  stderrChunks : List String
  waitRes : Except DockerError Nat
deriving DecidableEq, Repr

/-- Accumulation `stdoutData += data.toString()` over all chunks. -/
def concatChunks (chunks : List String) : String :=
  chunks.foldl (· ++ ·) ""

/-- Embedding of `captureContainerResultFromLogs` (app.mjs lines 55-95).
When the attach calls reject, the `catch` logs the error and falls off the
end of the function, so the caller receives `undefined` (modelled `.ok
none`) and no error propagates.  When attach succeeds, the returned promise
rejects with the stream error if the stdout stream errors, and otherwise
resolves with the accumulated stdout text on `end`. -/
def captureContainerResultFromLogs (cs : ContainerScript) :
    Except DockerError (Option String) :=
  match cs.attachErr with
  | some _ => .ok none
  | none =>
    match cs.streamErr with
    | some e => .error e
    | none => .ok (some (concatChunks cs.stdoutChunks))

/-- What `stderrStream.pipe(process.stderr)` writes to the host's error
stream during capture: every stderr chunk, and nothing else (no stderr byte
reaches the result accumulator). -/
def stderrForwardedToHost (cs : ContainerScript) : String :=
  match cs.attachErr with
  | some _ => ""
  | none => concatChunks cs.stderrChunks

/-- Embedding of `waitForContainerToFinish` (app.mjs lines 97-109): await
`container.wait()`; exit code 0 returns normally, and any other code throws
`new Error` whose message carries the code (a plain Error: no statusCode,
no json). -/
def waitForContainerToFinish (waitRes : Except DockerError Nat) :
    Except DockerError Unit :=
  match waitRes with
  | .error e => .error e
  | .ok code =>
    if code = 0 then .ok ()
    else .error
      { statusCode := none, jsonMessage := none,
        message := "Puppeteer script execution failed with exit code "
          ++ toString code }

/-- Stage of `runDockerCommand`'s try block from which a failure arose
(used only to state claims about stages; the source's catch never inspects
it). -/
inductive Stage where
  | creating
  | starting
  | capturing
  | waiting
deriving DecidableEq, Repr

/-- The try block of `runDockerCommand` (app.mjs lines 168-173): create,
start, capture, wait in sequence, the first rejection aborting the rest;
on success the value is the capture result (which is `undefined` when the
attach error was swallowed).  The failing stage is recorded alongside the
error so that claims about stages can be stated. -/
def runAttemptBody (cs : ContainerScript) :
    Except (Stage × DockerError) (Option String) :=
  match cs.createErr with
  | some e => .error (.creating, e)
  | none =>
    match cs.startErr with
    | some e => .error (.starting, e)
    | none =>
      match captureContainerResultFromLogs cs with
      | .error e => .error (.capturing, e)
      | .ok out =>
        match waitForContainerToFinish cs.waitRes with
        | .error e => .error (.waiting, e)
        | .ok () => .ok out

/-- Scripted behaviour of one `docker.pull` performed by
`handleImageNotFoundThenRetry`: `finishedOk` is `followProgress` completing
without error, `finishedErr` is it completing with an error, and
`pullThrew` is the pull callback path throwing so the surrounding
`try`/`catch` rejects the promise. -/
inductive PullScript where
  | finishedOk
  | finishedErr (msg : String)
  | pullThrew (e : DockerError)
deriving DecidableEq, Repr

/-- Terminal observation of one job from the caller's side: the promise
resolves with the capture result, rejects with an error, or never settles. -/
inductive JobOutcome where
  | success (out : Option String)
  | failure (e : DockerError)
  | hang
deriving DecidableEq, Repr

/-- Embedding of `handleImageNotFoundThenRetry` (app.mjs lines 111-144)
given the scripted pull behaviour and the outcome `retry` of the re-run it
resolves with.  On `finishedOk`, `onFinished` resolves with
`runDockerCommand(jobParams)`.  On `finishedErr`, `onFinished` logs, calls
the no-op `publishFeedback` and returns without settling the promise, so
the job hangs.  On `pullThrew`, the catch rejects with the thrown error. -/
def handleImageNotFoundThenRetry (ps : PullScript)
    (retry : Option JobOutcome) : Option JobOutcome :=
  match ps with
  | .finishedOk => retry
  | .finishedErr _ => some .hang
  | .pullThrew e => some (.failure e)

/-- Embedding of `runDockerCommand` (app.mjs lines 146-181) replayed over a
script listing, per attempt, the container's behaviour and (if a pull
happens after that attempt) the pull's behaviour.  The catch retries
through `handleImageNotFoundThenRetry` exactly when the error shape passes
`isImageAbsentShape`, whatever the stage that threw it; any other error is
rethrown.  `none` means the script was exhausted before the job settled. -/
def runDockerCommand : List (ContainerScript × PullScript) → Option JobOutcome
  | [] => none
  | (cs, ps) :: rest =>
    match runAttemptBody cs with
    | .ok out => some (.success out)
    | .error (_, e) =>
      if isImageAbsentShape e then
        handleImageNotFoundThenRetry ps (runDockerCommand rest)
      else
        some (.failure e)

/-- Number of `docker.pull` calls the job performs over the script: one per
attempt whose failure passes the image-absent test, continuing into the
retried run only when the pull completed without error. -/
def pullCount : List (ContainerScript × PullScript) → Nat
  | [] => 0
  | (cs, ps) :: rest =>
    match runAttemptBody cs with
    | .ok _ => 0
    | .error (_, e) =>
      if isImageAbsentShape e then
        1 + (match ps with
          | .finishedOk => pullCount rest
          | _ => 0)
      else 0

/-- Number of `docker.createContainer` calls the job performs over the
script: one per attempt entered. -/
def createCalls : List (ContainerScript × PullScript) → Nat
  | [] => 0
  | (cs, ps) :: rest =>
    1 + (match runAttemptBody cs with
      | .ok _ => 0
      | .error (_, e) =>
        if isImageAbsentShape e then
          match ps with
          | .finishedOk => createCalls rest
          | _ => 0
        else 0)

/-- Body of an HTTP response sent by `startScrapperJob`: `result` is
`res.json(result)` on success (the capture value, `undefined` when the
attach error was swallowed) and `errorObj` is
`res.json({status: 'error', message})`. -/
inductive ResponseBody where
  | result (out : Option String)
  | errorObj (message : String)
deriving DecidableEq, Repr

/-- An HTTP response: status code and JSON body. -/
structure HttpResponse where
  status : Nat
  body : ResponseBody
deriving DecidableEq, Repr

/-- Observation of one request at the HTTP boundary: a response was sent,
or the handler suspended forever and no response was ever sent. -/
inductive HttpOutcome where
  | responded (r : HttpResponse)
  | noResponse
deriving DecidableEq, Repr

/-- Embedding of `startScrapperJob` (app.mjs lines 214-233): validate the
body, answering 400 with the validation message on failure; otherwise await
`runDockerCommand`, answering 200 with its result, or 500 with
`Puppeteer script execution failed: ${err.message}` when it rejects; when
the job hangs, no response is ever sent. -/
def startScrapperJob (fs : FsModel) (resolveStr : String → String → String)
    (basePath : String) (params : JsParams)
    (script : List (ContainerScript × PullScript)) : Option HttpOutcome :=
  let v := validateParams fs resolveStr basePath params
  if !v.isValid then
    some (.responded { status := 400, body := .errorObj (v.error.getD "") })
  else
    (runDockerCommand script).map fun
      | .success out => .responded { status := 200, body := .result out }
      | .failure e => .responded
          { status := 500,
            body := .errorObj ("Puppeteer script execution failed: "
              ++ e.message) }
      | .hang => .noResponse

/-- Number of `docker.createContainer` calls performed while serving one
request: zero when validation rejects the body (the orchestrator is never
invoked), and `createCalls script` otherwise. -/
def requestCreateCalls (fs : FsModel)
    (resolveStr : String → String → String) (basePath : String)
    (params : JsParams) (script : List (ContainerScript × PullScript)) : Nat :=
  if (validateParams fs resolveStr basePath params).isValid then
    createCalls script
  else 0

/-- A concrete string-level `path.resolve` used to instantiate theorems: it
joins the base and the relative path with a separator. -/
def concatResolve : String → String → String := fun base s => base ++ "/" ++ s

/-- A concrete filesystem in which the base directory `/b` is canonical,
and `/b/link` is a symlink whose canonical target is the sibling directory
`/bad` — a path outside `/b` whose name nevertheless extends the string
`/b`. -/
def fsSibling : FsModel :=
  ⟨fun p =>
    if p = "/b" then some "/b"
    else if p = "/b/link" then some "/bad"
    else none⟩

/-- A concrete filesystem in which the base directory `/b` and the job
directory `/b/x` are both canonical and no symlinks intervene. -/
def fsGood : FsModel :=
  ⟨fun p =>
    if p = "/b" then some "/b"
    else if p = "/b/x" then some "/b/x"
    else none⟩

/-- The error dockerode raises when `createContainer` names a missing
image: HTTP status 404 with a JSON body whose message names the image. -/
def e404 : DockerError :=
  { statusCode := some 404,
    jsonMessage := some "No such image: ghcr.io/puppeteer/puppeteer:22.10.0",
    message := "no such image" }

/-- An error raised while attaching to the container streams: not a 404 and
carrying no JSON body. -/
def eAttach : DockerError :=
  { statusCode := some 500, jsonMessage := none, message := "socket hang up" }

/-- A container run in which every Docker call succeeds: the given stdout
and stderr chunks are emitted and the container exits with `code`. -/
def csPlain (stdout stderr : List String) (code : Nat) : ContainerScript :=
  { createErr := none, startErr := none, attachErr := none,
    stdoutChunks := stdout, streamErr := none, stderrChunks := stderr,
    waitRes := .ok code }

/-- A container run whose creation fails with the image-absent 404. -/
def csImageAbsent : ContainerScript :=
  { createErr := some e404, startErr := none, attachErr := none,
    stdoutChunks := [], streamErr := none, stderrChunks := [],
    waitRes := .ok 0 }

/-- A container run in which create, start and capture succeed but
`container.wait()` itself rejects with the image-absent-shaped 404. -/
def csWait404 : ContainerScript :=
  { createErr := none, startErr := none, attachErr := none,
    stdoutChunks := [], streamErr := none, stderrChunks := [],
    waitRes := .error e404 }

/-- A container run in which attaching to the streams fails and the
container then exits cleanly. -/
def csAttachFail : ContainerScript :=
  { createErr := none, startErr := none, attachErr := some eAttach,
    stdoutChunks := [], streamErr := none, stderrChunks := [],
    waitRes := .ok 0 }

/-- A job script with two image-absent creation failures, each followed by
a successful pull, before a clean run. -/
def scriptTwoPulls : List (ContainerScript × PullScript) :=
  [(csImageAbsent, .finishedOk), (csImageAbsent, .finishedOk),
   (csPlain ["done"] [] 0, .finishedOk)]

/-- A job script in which the waiting stage rejects with an
image-absent-shaped error, followed by a clean run. -/
def scriptWaitRetry : List (ContainerScript × PullScript) :=
  [(csWait404, .finishedOk), (csPlain ["ok"] [] 0, .finishedOk)]

/-- A job script in which creation finds the image absent and the
subsequent pull completes with an error. -/
def scriptPullFails : List (ContainerScript × PullScript) :=
  [(csImageAbsent, .finishedErr "pull access denied")]

/-- A job script in which attaching to the streams fails and the container
then exits cleanly. -/
def scriptAttachSwallowed : List (ContainerScript × PullScript) :=
  [(csAttachFail, .finishedOk)]

/-- The empty character list is a prefix of every list. -/
theorem isPrefixOf_nil_left (p : List Char) : List.isPrefixOf [] p = true := by
  cases p <;> rfl

/-- Every character list is a prefix of itself. -/
theorem isPrefixOf_refl (l : List Char) : l.isPrefixOf l = true := by
  induction l with
  | nil => rfl
  | cons a as ih => simp [List.isPrefixOf, ih]

/-- Dropping a suffix of the pattern preserves the prefix test. -/
theorem isPrefixOf_of_append (l m p : List Char)
    (h : (l ++ m).isPrefixOf p = true) : l.isPrefixOf p = true := by
  induction l generalizing p with
  | nil => exact isPrefixOf_nil_left p
  | cons a as ih =>
    cases p with
    | nil => simp [List.isPrefixOf] at h
    | cons b bs =>
      simp only [List.cons_append, List.isPrefixOf, Bool.and_eq_true] at h ⊢
      exact ⟨h.1, ih bs h.2⟩

/-- A path that stays within the base directory in the spec's sense passes
the string-prefix test the validator performs. -/
theorem jsStartsWith_of_withinBase (base p : String)
    (h : withinBase base p = true) : jsStartsWith p base = true := by
  unfold withinBase at h
  rcases Bool.or_eq_true _ _ |>.mp h with h1 | h2
  · have : p = base := eq_of_beq h1
    subst this
    exact isPrefixOf_refl p.data
  · unfold jsStartsWith at h2 ⊢
    rw [String.data_append] at h2
    exact isPrefixOf_of_append _ _ _ h2

/-- Claim C1: the validator does not accept exactly the paths that resolve
within the base directory.  Counterexample: with base `/b` canonical and
`/b/link` a symlink resolving to the sibling `/bad`, both realpath calls
succeed, the resolved candidate lies outside the base directory, and yet
`isValidPartialPath` accepts it, because the string `/bad` starts with the
string `/b`. -/
theorem C1_sibling_escape_accepted :
    fsSibling.realpath "/b" = some "/b" ∧
    fsSibling.realpath (concatResolve "/b" "link") = some "/bad" ∧
    isValidPartialPath fsSibling (resolveNode concatResolve "/b") "/b"
      (.str "link") = true ∧
    withinBase "/b" "/bad" = false := by decide

/-- Claim C1 (amended): whenever resolving the base directory and the
candidate path both succeed, the validator accepts exactly when the
canonical candidate string starts with the canonical base string; in
particular every path that resolves within the base directory is accepted,
but a path resolving outside it may also be accepted when its canonical
string extends the base's without a separator. -/
theorem C1_accept_iff_string_prefix (fs : FsModel)
    (resolve : JsValue → Option String) (basePath : String) (P : JsValue)
    (rp rb rr : String)
    (hres : resolve P = some rp)
    (hb : fs.realpath basePath = some rb)
    (hr : fs.realpath rp = some rr) :
    isValidPartialPath fs resolve basePath P = jsStartsWith rr rb ∧
    (withinBase rb rr = true →
      isValidPartialPath fs resolve basePath P = true) := by
  have h1 : isValidPartialPath fs resolve basePath P = jsStartsWith rr rb := by
    simp only [isValidPartialPath, hb, hres, hr]
  exact ⟨h1, fun hw => h1.trans (jsStartsWith_of_withinBase rb rr hw)⟩

/-- Claim C1 witness: a concrete in-sandbox path on which the amended
theorem applies. -/
theorem C1_accept_iff_string_prefix_witness :
    isValidPartialPath fsGood (resolveNode concatResolve "/b") "/b"
      (.str "x") = jsStartsWith "/b/x" "/b" ∧
    (withinBase "/b" "/b/x" = true →
      isValidPartialPath fsGood (resolveNode concatResolve "/b") "/b"
        (.str "x") = true) :=
  C1_accept_iff_string_prefix fsGood (resolveNode concatResolve "/b") "/b"
    (.str "x") "/b/x" "/b" "/b/x" (by decide) (by decide) (by decide)

/-- Claim C2: the pull-and-retry loop is not taken at most once.
Counterexample: a job whose first two creation attempts both fail with the
image-absent 404, each followed by a successful pull, performs two pull
cycles and still resolves successfully — the second image-absent failure
triggered a further pull-and-retry cycle. -/
theorem C2_second_image_absent_retries_again :
    pullCount scriptTwoPulls = 2 ∧
    runDockerCommand scriptTwoPulls = some (.success (some "done")) := by
  decide

/-- Claim C2 (amended): the retry loop is unbounded — every failure of
image-absent shape whose subsequent pull completes successfully re-runs
the whole job on the remaining script and adds one more pull, however many
pulls have already happened; the loop stops only at an attempt that does
not fail with the image-absent shape or at a pull that does not complete
successfully. -/
theorem C2_retry_loop_unbounded (cs : ContainerScript) (st : Stage)
    (e : DockerError) (rest : List (ContainerScript × PullScript))
    (hfail : runAttemptBody cs = .error (st, e))
    (hshape : isImageAbsentShape e = true) :
    runDockerCommand ((cs, .finishedOk) :: rest) = runDockerCommand rest ∧
    pullCount ((cs, .finishedOk) :: rest) = 1 + pullCount rest := by
  constructor
  · simp only [runDockerCommand, hfail, hshape, if_pos,
      handleImageNotFoundThenRetry]
  · simp only [pullCount, hfail, hshape, if_pos]

/-- Claim C2 witness: the unbounded-retry step applied to a concrete
image-absent creation failure. -/
theorem C2_retry_loop_unbounded_witness :
    runDockerCommand ((csImageAbsent, .finishedOk)
        :: [(csPlain ["done"] [] 0, .finishedOk)]) =
      runDockerCommand [(csPlain ["done"] [] 0, .finishedOk)] ∧
    pullCount ((csImageAbsent, .finishedOk)
        :: [(csPlain ["done"] [] 0, .finishedOk)]) =
      1 + pullCount [(csPlain ["done"] [] 0, .finishedOk)] :=
  C2_retry_loop_unbounded csImageAbsent .creating e404
    [(csPlain ["done"] [] 0, .finishedOk)] (by decide) (by decide)

/-- Claim C3: classification as image-absent is not restricted to
container-creation failures.  Counterexample: a rejection of
`container.wait()` (the waiting stage) carrying the 404 No-such-image
shape also triggers a pull-and-retry cycle instead of transitioning the
job straight to Failed. -/
theorem C3_wait_stage_404_also_retries :
    runAttemptBody csWait404 = .error (.waiting, e404) ∧
    pullCount scriptWaitRetry = 1 ∧
    runDockerCommand scriptWaitRetry = some (.success (some "ok")) := by
  decide

/-- Claim C3 (amended): a failure is classified as image-absent exactly
when its shape is a not-found error (HTTP status 404) carrying a JSON body
whose message includes `No such image`, regardless of the stage that
raised it; every failure of any other shape is rethrown and the job fails
with it, with no pull attempted. -/
theorem C3_classification_by_shape_only (cs : ContainerScript)
    (ps : PullScript) (st : Stage) (e : DockerError)
    (rest : List (ContainerScript × PullScript))
    (hfail : runAttemptBody cs = .error (st, e)) :
    (isImageAbsentShape e = false →
      runDockerCommand ((cs, ps) :: rest) = some (.failure e) ∧
      pullCount ((cs, ps) :: rest) = 0) ∧
    (isImageAbsentShape e = true →
      1 ≤ pullCount ((cs, ps) :: rest) ∧
      e.statusCode = some 404 ∧
      ∃ m, e.jsonMessage = some m ∧ jsIncludes m "No such image" = true) := by
  constructor
  · intro hno
    constructor
    · simp only [runDockerCommand, hfail, hno, if_neg, Bool.false_eq_true,
        not_false_iff]
    · simp only [pullCount, hfail, hno, if_neg, Bool.false_eq_true,
        not_false_iff]
  · intro hyes
    refine ⟨?_, ?_, ?_⟩
    · simp only [pullCount, hfail, hyes, if_pos]
      exact Nat.le_add_right 1 _
    · have := (Bool.and_eq_true _ _).mp (by
        simpa only [isImageAbsentShape] using hyes)
      exact eq_of_beq this.1
    · have h2 := (Bool.and_eq_true _ _).mp (by
        simpa only [isImageAbsentShape] using hyes)
      rcases hm : e.jsonMessage with _ | m
      · rw [hm] at h2
        exact absurd h2.2 (by simp)
      · rw [hm] at h2
        exact ⟨m, rfl, h2.2⟩

/-- Claim C3 witness: the shape-only classification applied to a concrete
creation failure that does carry the image-absent shape. -/
theorem C3_classification_by_shape_only_witness :
    (isImageAbsentShape e404 = false →
      runDockerCommand ((csImageAbsent, .finishedOk)
          :: [(csPlain ["ok"] [] 0, .finishedOk)]) =
        some (.failure e404) ∧
      pullCount ((csImageAbsent, .finishedOk)
          :: [(csPlain ["ok"] [] 0, .finishedOk)]) = 0) ∧
    (isImageAbsentShape e404 = true →
      1 ≤ pullCount ((csImageAbsent, .finishedOk)
          :: [(csPlain ["ok"] [] 0, .finishedOk)]) ∧
      e404.statusCode = some 404 ∧
      ∃ m, e404.jsonMessage = some m ∧
        jsIncludes m "No such image" = true) :=
  C3_classification_by_shape_only csImageAbsent .finishedOk .creating e404
    [(csPlain ["ok"] [] 0, .finishedOk)] (by decide)

/-- Claim C4: when the image pull completes with an error, `onFinished`
only logs and returns — it neither resolves nor rejects the promise — so
the job hangs and the HTTP request is never answered: the error does not
surface to the caller as a 500 ExecutionError.  (The sibling variant of
the file rejects the promise at this point, which is the behaviour the
claim describes.) -/
theorem C4_failed_pull_leaves_request_unresolved :
    runDockerCommand scriptPullFails = some .hang ∧
    handleImageNotFoundThenRetry (.finishedErr "pull access denied")
      (some (.success (some "done"))) = some .hang ∧
    startScrapperJob fsGood concatResolve "/b" ⟨.str "x"⟩ scriptPullFails =
      some .noResponse := by
  decide

/-- Claim C5: a failure to attach to the container's output channels does
not propagate to the HTTP boundary.  The `catch` in
`captureContainerResultFromLogs` logs the attach error and falls off the
end of the function, so the job continues with an `undefined` result and,
when the container then exits cleanly, the caller receives a 200 whose
body is the `undefined` capture value — not a 500 ExecutionError.  (The
sibling variant of the file rethrows the attach error, which is the
behaviour the claim describes.) -/
theorem C5_attach_failure_swallowed :
    captureContainerResultFromLogs csAttachFail = .ok none ∧
    runDockerCommand scriptAttachSwallowed = some (.success none) ∧
    startScrapperJob fsGood concatResolve "/b" ⟨.str "x"⟩
      scriptAttachSwallowed =
      some (.responded { status := 200, body := .result none }) := by
  decide

/-- Claim C6: for a validated request whose container run reaches the
waiting stage cleanly, exit code 0 yields a 200 response carrying the
captured output, and any non-zero exit code yields a 500 response whose
message contains the literal exit code. -/
theorem C6_exit_code_decides_outcome (fs : FsModel)
    (resolveStr : String → String → String) (basePath : String)
    (params : JsParams) (cs : ContainerScript) (ps : PullScript) (code : Nat)
    (hvalid : (validateParams fs resolveStr basePath params).isValid = true)
    (hc : cs.createErr = none) (hs : cs.startErr = none)
    (ha : cs.attachErr = none) (hst : cs.streamErr = none)
    (hw : cs.waitRes = .ok code) :
    (code = 0 →
      startScrapperJob fs resolveStr basePath params [(cs, ps)] =
        some (.responded
          { status := 200
            body := .result (some (concatChunks cs.stdoutChunks)) })) ∧
    (code ≠ 0 →
      ∃ msg,
        startScrapperJob fs resolveStr basePath params [(cs, ps)] =
          some (.responded { status := 500, body := .errorObj msg }) ∧
        ∃ pre post, msg.data = pre ++ (toString code).data ++ post) := by
  have hcap : captureContainerResultFromLogs cs =
      .ok (some (concatChunks cs.stdoutChunks)) := by
    simp only [captureContainerResultFromLogs, ha, hst]
  constructor
  · intro h0
    subst h0
    have hrab : runAttemptBody cs =
        .ok (some (concatChunks cs.stdoutChunks)) := by
      simp [runAttemptBody, hc, hs, hcap, waitForContainerToFinish, hw]
    have hrun : runDockerCommand [(cs, ps)] =
        some (.success (some (concatChunks cs.stdoutChunks))) := by
      simp [runDockerCommand, hrab]
    simp [startScrapperJob, hvalid, hrun]
  · intro hnz
    refine ⟨"Puppeteer script execution failed: "
      ++ ("Puppeteer script execution failed with exit code "
        ++ toString code), ?_, ?_⟩
    · have hrab : runAttemptBody cs = .error (.waiting,
          { statusCode := none, jsonMessage := none,
            message := "Puppeteer script execution failed with exit code "
              ++ toString code }) := by
        simp [runAttemptBody, hc, hs, hcap, waitForContainerToFinish, hw,
          hnz]
      have hrun : runDockerCommand [(cs, ps)] =
          some (.failure
            { statusCode := none, jsonMessage := none,
              message := "Puppeteer script execution failed with exit code "
                ++ toString code }) := by
        simp [runDockerCommand, hrab, isImageAbsentShape]
      simp [startScrapperJob, hvalid, hrun]
    · refine ⟨("Puppeteer script execution failed: ").data
        ++ ("Puppeteer script execution failed with exit code ").data,
        [], ?_⟩
      simp [String.data_append, List.append_assoc]

/-- Claim C6 witness: a concrete clean run with exit code 1, validated
against the concrete sandbox filesystem. -/
theorem C6_exit_code_decides_outcome_witness :
    ((1 : Nat) = 0 →
      startScrapperJob fsGood concatResolve "/b" ⟨.str "x"⟩
          [(csPlain ["done"] [] 1, .finishedOk)] =
        some (.responded
          { status := 200
            body := .result
              (some (concatChunks (csPlain ["done"] [] 1).stdoutChunks)) })) ∧
    ((1 : Nat) ≠ 0 →
      ∃ msg,
        startScrapperJob fsGood concatResolve "/b" ⟨.str "x"⟩
            [(csPlain ["done"] [] 1, .finishedOk)] =
          some (.responded { status := 500, body := .errorObj msg }) ∧
        ∃ pre post, msg.data = pre ++ (toString (1 : Nat)).data ++ post) :=
  C6_exit_code_decides_outcome fsGood concatResolve "/b" ⟨.str "x"⟩
    (csPlain ["done"] [] 1) .finishedOk 1 (by decide) rfl rfl rfl rfl rfl

/-- Claim C7: for a successful job the result returned with the 200
response is exactly the accumulation of the stdout channel's chunks, the
stderr channel is forwarded in full to the host's error stream and none of
its bytes reach the result: replacing the stderr chunks by any list leaves
the captured result and the response unchanged. -/
theorem C7_result_is_stdout_only (fs : FsModel)
    (resolveStr : String → String → String) (basePath : String)
    (params : JsParams) (cs : ContainerScript) (ps : PullScript)
    (errChunks : List String)
    (hvalid : (validateParams fs resolveStr basePath params).isValid = true)
    (hc : cs.createErr = none) (hs : cs.startErr = none)
    (ha : cs.attachErr = none) (hst : cs.streamErr = none)
    (hw : cs.waitRes = .ok 0) :
    captureContainerResultFromLogs { cs with stderrChunks := errChunks } =
      .ok (some (concatChunks cs.stdoutChunks)) ∧
    stderrForwardedToHost { cs with stderrChunks := errChunks } =
      concatChunks errChunks ∧
    startScrapperJob fs resolveStr basePath params
        [({ cs with stderrChunks := errChunks }, ps)] =
      some (.responded
        { status := 200
          body := .result (some (concatChunks cs.stdoutChunks)) }) := by
  have hcap : captureContainerResultFromLogs
      { cs with stderrChunks := errChunks } =
      .ok (some (concatChunks cs.stdoutChunks)) := by
    simp [captureContainerResultFromLogs, ha, hst]
  refine ⟨hcap, ?_, ?_⟩
  · simp [stderrForwardedToHost, ha]
  · have hrab : runAttemptBody { cs with stderrChunks := errChunks } =
        .ok (some (concatChunks cs.stdoutChunks)) := by
      simp [runAttemptBody, captureContainerResultFromLogs, hc, hs, ha,
        hst, waitForContainerToFinish, hw]
    have hrun : runDockerCommand
        [({ cs with stderrChunks := errChunks }, ps)] =
        some (.success (some (concatChunks cs.stdoutChunks))) := by
      simp [runDockerCommand, hrab]
    simp [startScrapperJob, hvalid, hrun]

/-- Claim C7 witness: a clean run emitting `done` on stdout while arbitrary
bytes flow on stderr. -/
theorem C7_result_is_stdout_only_witness :
    captureContainerResultFromLogs
        { csPlain ["done"] [] 0 with stderrChunks := ["oops"] } =
      .ok (some (concatChunks (csPlain ["done"] [] 0).stdoutChunks)) ∧
    stderrForwardedToHost
        { csPlain ["done"] [] 0 with stderrChunks := ["oops"] } =
      concatChunks ["oops"] ∧
    startScrapperJob fsGood concatResolve "/b" ⟨.str "x"⟩
        [({ csPlain ["done"] [] 0 with stderrChunks := ["oops"] },
          .finishedOk)] =
      some (.responded
        { status := 200
          body := .result
            (some (concatChunks (csPlain ["done"] [] 0).stdoutChunks)) }) :=
  C7_result_is_stdout_only fsGood concatResolve "/b" ⟨.str "x"⟩
    (csPlain ["done"] [] 0) .finishedOk ["oops"] (by decide) rfl rfl rfl rfl
    rfl

/-- Claim C8: a request body whose `programDirectory` is absent is answered
with a 400 whose message names the missing field, and no container is ever
created: the orchestrator's create stage is never reached, for any
scripted engine behaviour. -/
theorem C8_missing_field_no_container (fs : FsModel)
    (resolveStr : String → String → String) (basePath : String)
    (params : JsParams) (script : List (ContainerScript × PullScript))
    (h : params.programDirectory = .undef) :
    startScrapperJob fs resolveStr basePath params script =
      some (.responded
        { status := 400
          body := .errorObj requiredFieldMsg }) ∧
    requestCreateCalls fs resolveStr basePath params script = 0 ∧
    (∃ pre post,
      requiredFieldMsg.data = pre ++ ("programDirectory").data ++ post) := by
  have hval : validateParams fs resolveStr basePath params =
      { isValid := false, error := some requiredFieldMsg } := by
    simp [validateParams, h, JsValue.truthy]
  refine ⟨?_, ?_, ?_⟩
  · simp [startScrapperJob, hval]
  · simp [requestCreateCalls, hval]
  · exact ⟨("Error: ").data, (" is required").data, by decide⟩

/-- Claim C8 witness: the missing-field response on a concrete request and
a concrete engine script. -/
theorem C8_missing_field_no_container_witness :
    startScrapperJob fsGood concatResolve "/b" ⟨.undef⟩ scriptTwoPulls =
      some (.responded
        { status := 400
          body := .errorObj requiredFieldMsg }) ∧
    requestCreateCalls fsGood concatResolve "/b" ⟨.undef⟩ scriptTwoPulls =
      0 ∧
    (∃ pre post,
      requiredFieldMsg.data = pre ++ ("programDirectory").data ++ post) :=
  C8_missing_field_no_container fsGood concatResolve "/b" ⟨.undef⟩
    scriptTwoPulls rfl

/-- Claim C9: `validateParams` is total — on every request body it returns
a well-formed `{isValid, error}` result, the error being one of its two
messages when invalid — and every exception raised while resolving the
path, including the TypeError `path.resolve` raises on a non-string
`programDirectory`, is converted into the invalid-path rejection rather
than propagated. -/
theorem C9_validateParams_total (fs : FsModel)
    (resolveStr : String → String → String) (basePath : String)
    (params : JsParams) :
    (((validateParams fs resolveStr basePath params).isValid = true ∧
        (validateParams fs resolveStr basePath params).error = none) ∨
      ((validateParams fs resolveStr basePath params).isValid = false ∧
        ((validateParams fs resolveStr basePath params).error =
            some requiredFieldMsg ∨
          (validateParams fs resolveStr basePath params).error =
            some invalidPathMsg))) ∧
    (params.programDirectory.truthy = true →
      resolveNode resolveStr basePath params.programDirectory = none →
      validateParams fs resolveStr basePath params =
        { isValid := false, error := some invalidPathMsg }) := by
  constructor
  · unfold validateParams
    by_cases ht : params.programDirectory.truthy
    · by_cases hv : isValidPartialPath fs (resolveNode resolveStr basePath)
          basePath params.programDirectory
      · simp [ht, hv]
      · simp [ht, hv]
    · simp [ht]
  · intro ht hres
    have hv : isValidPartialPath fs (resolveNode resolveStr basePath)
        basePath params.programDirectory = false := by
      cases hb : fs.realpath basePath <;>
        simp [isValidPartialPath, hb, hres]
    simp [validateParams, ht, hv]

/-- Claim C9 witness: a request whose `programDirectory` is the number 5 —
`path.resolve` raises a TypeError on it, and the validator converts that
into the invalid-path rejection. -/
theorem C9_validateParams_total_witness :
    (((validateParams fsGood concatResolve "/b" ⟨.num 5⟩).isValid = true ∧
        (validateParams fsGood concatResolve "/b" ⟨.num 5⟩).error = none) ∨
      ((validateParams fsGood concatResolve "/b" ⟨.num 5⟩).isValid =
          false ∧
        ((validateParams fsGood concatResolve "/b" ⟨.num 5⟩).error =
            some requiredFieldMsg ∨
          (validateParams fsGood concatResolve "/b" ⟨.num 5⟩).error =
            some invalidPathMsg))) ∧
    validateParams fsGood concatResolve "/b" ⟨.num 5⟩ =
      { isValid := false, error := some invalidPathMsg } :=
  ⟨(C9_validateParams_total fsGood concatResolve "/b" ⟨.num 5⟩).1,
    (C9_validateParams_total fsGood concatResolve "/b" ⟨.num 5⟩).2
      (by decide) (by decide)⟩

/-- Claim C10: a request whose `programDirectory` is present but falsy —
the empty string, or any other falsy value — is rejected with the
missing-required-field message, not the invalid-path message, because the
required-field check tests JavaScript falsiness rather than absence of the
key. -/
theorem C10_falsy_field_required_message (fs : FsModel)
    (resolveStr : String → String → String) (basePath : String)
    (v : JsValue) (hfalsy : v.truthy = false) :
    validateParams fs resolveStr basePath { programDirectory := v } =
      { isValid := false, error := some requiredFieldMsg } ∧
    requiredFieldMsg ≠ invalidPathMsg := by
  constructor
  · simp [validateParams, hfalsy]
  · decide

/-- Claim C10 witness: the empty-string `programDirectory` is answered with
the required-field message. -/
theorem C10_falsy_field_required_message_witness :
    validateParams fsGood concatResolve "/b"
        { programDirectory := .str "" } =
      { isValid := false, error := some requiredFieldMsg } ∧
    requiredFieldMsg ≠ invalidPathMsg :=
  C10_falsy_field_required_message fsGood concatResolve "/b" (.str "")
    (by decide)
